import Mathlib

/-!
Verification of the Overhead-Perception-System calibration core.

The definitions below are a shallow embedding of the calibration and
coordinate-transformation code in `world_frame_calibration.py` and
`xy_transform/coordinate_transform.py`.  Python floats are modelled as
real numbers, numpy vectors as functions `Fin n → ℝ`, and numpy matrices
as Mathlib matrices.  Functions that raise exceptions or return `None`
are modelled with `Option`.
-/

open Classical

noncomputable section


namespace WorldFrameCalibration

/-- Equivalent of `np.radians`: degrees to radians. -/
def radians (deg : ℝ) : ℝ := deg * Real.pi / 180

/-- Pinhole camera intrinsic parameters (the fields of an
`rs.intrinsics` object that this code reads). -/
structure Intrinsics where
  width : ℤ
  height : ℤ
  fx : ℝ
  fy : ℝ
  ppx : ℝ
  ppy : ℝ

/-- Modelled from the spec: `rs2_deproject_pixel_to_point` is a vendor
SDK call (external to the repository); the spec (§4.1 PinholeProjector)
gives its algorithm as the standard inverse pinhole projection
`x = (u - ppx) / fx * depth`, `y = (v - ppy) / fy * depth`, `z = depth`,
ignoring distortion. -/
def rs2_deproject_pixel_to_point (intr : Intrinsics) (u v depth : ℝ) : Fin 3 → ℝ :=
  ![(u - intr.ppx) / intr.fx * depth,
    (v - intr.ppy) / intr.fy * depth,
    depth]

/-- Elementary rotation about the X axis, as built in
`define_simple_overhead_calibration` (the `Rx` array). -/
def Rx (tilt : ℝ) : Matrix (Fin 3) (Fin 3) ℝ :=
  Matrix.of ![![1, 0, 0],
              ![0, Real.cos tilt, -Real.sin tilt],
              ![0, Real.sin tilt, Real.cos tilt]]

/-- Elementary rotation about the Y axis (the `Ry` array). -/
def Ry (pan : ℝ) : Matrix (Fin 3) (Fin 3) ℝ :=
  Matrix.of ![![Real.cos pan, 0, Real.sin pan],
              ![0, 1, 0],
              ![-Real.sin pan, 0, Real.cos pan]]

/-- Elementary rotation about the Z axis (the `Rz` array). -/
def Rz (roll : ℝ) : Matrix (Fin 3) (Fin 3) ℝ :=
  Matrix.of ![![Real.cos roll, -Real.sin roll, 0],
              ![Real.sin roll, Real.cos roll, 0],
              ![0, 0, 1]]

/-- The fixed axis-flip correction `R_camera_to_world = diag(1,-1,-1)`
applied after the Euler rotations. -/
def R_flip : Matrix (Fin 3) (Fin 3) ℝ :=
  Matrix.of ![![1, 0, 0],
              ![0, -1, 0],
              ![0, 0, -1]]

/-- The 4×4 homogeneous matrix assembly in
`define_simple_overhead_calibration`: `T = np.eye(4)` followed by the
slice assignments `T[:3,:3] = R` and `T[:3,3] = t`.  Entries outside the
assigned blocks keep their identity-matrix values. -/
def assembleHomogeneous (R : Matrix (Fin 3) (Fin 3) ℝ) (t : Fin 3 → ℝ) :
    Matrix (Fin 4) (Fin 4) ℝ :=
  Matrix.of fun i j =>
    if hi : (i : ℕ) < 3 then
      if hj : (j : ℕ) < 3 then R ⟨i, hi⟩ ⟨j, hj⟩ else t ⟨i, hi⟩
    else (1 : Matrix (Fin 4) (Fin 4) ℝ) i j

/-- The extrinsic state produced by
`WorldFrameCalibrator.define_simple_overhead_calibration`: the fields it
assigns on the calibrator. -/
structure SimpleCalibration where
  camera_height_cm : ℝ
  camera_position_world : Fin 3 → ℝ
  rotation_matrix : Matrix (Fin 3) (Fin 3) ℝ
  T_world_camera : Matrix (Fin 4) (Fin 4) ℝ

/-- `WorldFrameCalibrator.define_simple_overhead_calibration`: converts
angles with `np.radians`, builds `Rz @ Ry @ Rx`, composes with the fixed
flip `diag(1,-1,-1)` on the right, stores the camera position
`[x/100, y/100, height_cm/100]` (metres) and assembles the homogeneous
transform. -/
def define_simple_overhead_calibration
    (camera_height_cm : ℝ) (camera_x_world : ℝ) (camera_y_world : ℝ)
    (camera_tilt_deg : ℝ) (camera_pan_deg : ℝ) (camera_roll_deg : ℝ) :
    SimpleCalibration :=
  let tilt := radians camera_tilt_deg
  let pan := radians camera_pan_deg
  let roll := radians camera_roll_deg
  let pos : Fin 3 → ℝ :=
    ![camera_x_world / 100, camera_y_world / 100, camera_height_cm / 100]
  let R := Rz roll * Ry pan * Rx tilt
  let R_final := R * R_flip
  { camera_height_cm := camera_height_cm
    camera_position_world := pos
    rotation_matrix := R_final
    T_world_camera := assembleHomogeneous R_final pos }

/-- `np.append(point_camera, 1)`: promotion to homogeneous coordinates. -/
def toHomogeneous (p : Fin 3 → ℝ) : Fin 4 → ℝ := ![p 0, p 1, p 2, 1]

/-- `WorldFrameCalibrator.camera_to_world_coordinates` (the active
definition, lines 213-244; the centimetres-first variant below it is
dead code inside a string literal): promote to homogeneous, multiply by
`T_world_camera`, take the first three components, multiply by 100 when
`return_cm` is true. -/
def camera_to_world_coordinates (T : Matrix (Fin 4) (Fin 4) ℝ)
    (point_camera : Fin 3 → ℝ) (return_cm : Bool) : Fin 3 → ℝ :=
  let point_world_h := T.mulVec (toHomogeneous point_camera)
  let point_world : Fin 3 → ℝ := ![point_world_h 0, point_world_h 1, point_world_h 2]
  if return_cm then fun i => point_world i * 100 else point_world

/-- One entry of `WorldFrameCalibrator.calibration_points`: the dict
appended by `add_calibration_point`. -/
structure CalibrationPoint where
  label : String
  pixel_coords : ℤ × ℤ
  depth_meters : ℝ
  world_coords_true : ℝ × ℝ × ℝ
  world_coords_predicted : ℝ × ℝ × ℝ
  error_cm : ℝ

/-- The metrics dict returned by
`WorldFrameCalibrator.validate_calibration`. -/
structure ValidationMetrics where
  num_points : ℕ
  mean_error_cm : ℝ
  std_error_cm : ℝ
  max_error_cm : ℝ
  min_error_cm : ℝ
  rmse_cm : ℝ

/-- `np.mean` on a list of floats: sum divided by length. -/
def npMean (l : List ℝ) : ℝ := l.sum / l.length

/-- `np.std` on a list of floats with the default `ddof=0`: the
population standard deviation, the square root of the mean squared
deviation from the mean. -/
def npStd (l : List ℝ) : ℝ :=
  Real.sqrt (npMean (l.map fun x => (x - npMean l) ^ 2))

/-- `np.max` on a nonempty list (the `[]` case is unreachable:
`validate_calibration` guards against an empty history). -/
def npMax : List ℝ → ℝ
  | [] => 0
  | x :: xs => xs.foldl max x

/-- `np.min` on a nonempty list (the `[]` case is unreachable). -/
def npMin : List ℝ → ℝ
  | [] => 0
  | x :: xs => xs.foldl min x

/-- `WorldFrameCalibrator.validate_calibration`: with an empty history
it prints a warning and returns `None`; otherwise it returns the metrics
dict computed over the `error_cm` values of all calibration points. -/
def validate_calibration (calibration_points : List CalibrationPoint) :
    Option ValidationMetrics :=
  if calibration_points.length = 0 then none
  else
    let errors := calibration_points.map fun pt => pt.error_cm
    some
      { num_points := errors.length
        mean_error_cm := npMean errors
        std_error_cm := npStd errors
        max_error_cm := npMax errors
        min_error_cm := npMin errors
        rmse_cm := Real.sqrt (npMean (errors.map fun x => x ^ 2)) }

/-- The mutable attributes of a `WorldFrameCalibrator` instance that the
claims touch; `None` models a Python attribute still set to `None`. -/
structure CalibratorState where
  camera_intrinsics : Option Intrinsics
  depth_scale : Option ℝ
  camera_height_cm : Option ℝ
  camera_position_world : Option (Fin 3 → ℝ)
  rotation_matrix : Option (Matrix (Fin 3) (Fin 3) ℝ)
  translation_vector : Option (Matrix (Fin 3) (Fin 1) ℝ)
  T_world_camera : Option (Matrix (Fin 4) (Fin 4) ℝ)
  calibration_error_cm : Option ℝ
  calibration_points : List CalibrationPoint

/-- The state produced by `WorldFrameCalibrator.__init__`: every camera
and calibration attribute is `None` and the point history is empty. -/
def initState : CalibratorState :=
  { camera_intrinsics := none
    depth_scale := none
    camera_height_cm := none
    camera_position_world := none
    rotation_matrix := none
    translation_vector := none
    T_world_camera := none
    calibration_error_cm := none
    calibration_points := [] }

/-- `WorldFrameCalibrator.pixel_to_camera_coordinates`: raises
`ValueError` (modelled as `none`) when `camera_intrinsics` is unset,
otherwise deprojects through the pinhole model. -/
def pixel_to_camera_coordinates (s : CalibratorState) (u v depth_meters : ℝ) :
    Option (Fin 3 → ℝ) :=
  match s.camera_intrinsics with
  | none => none
  | some intr => some (rs2_deproject_pixel_to_point intr u v depth_meters)

/-- `np.linalg.norm` of a 3-vector: the Euclidean norm. -/
def linalg_norm (v : Fin 3 → ℝ) : ℝ :=
  Real.sqrt (v 0 ^ 2 + v 1 ^ 2 + v 2 ^ 2)

/-- `WorldFrameCalibrator.add_calibration_point`: deprojects the pixel,
transforms it to world centimetres, computes the Euclidean error to the
known world coordinates, and appends the new point to the history.
Returns the updated state plus the returned error; `none` models the
`ValueError` raised when intrinsics or the transform are unset. -/
def add_calibration_point (s : CalibratorState) (pixel_coords : ℤ × ℤ)
    (depth_meters : ℝ) (world_coords : ℝ × ℝ × ℝ) (label : String) :
    Option (CalibratorState × ℝ) :=
  match s.camera_intrinsics, s.T_world_camera with
  | some intr, some T =>
    let point_camera :=
      rs2_deproject_pixel_to_point intr pixel_coords.1 pixel_coords.2 depth_meters
    let point_world_predicted := camera_to_world_coordinates T point_camera true
    let error := linalg_norm fun i =>
      point_world_predicted i - ![world_coords.1, world_coords.2.1, world_coords.2.2] i
    let calibration_point : CalibrationPoint :=
      { label := label
        pixel_coords := pixel_coords
        depth_meters := depth_meters
        world_coords_true := world_coords
        world_coords_predicted :=
          (point_world_predicted 0, point_world_predicted 1, point_world_predicted 2)
        error_cm := error }
    some ({ s with calibration_points := s.calibration_points ++ [calibration_point] },
          error)
  | _, _ => none

/-- Euclidean distance between two world-coordinate triples, both in
centimetres. -/
def dist_cm (a b : ℝ × ℝ × ℝ) : ℝ :=
  Real.sqrt ((a.1 - b.1) ^ 2 + (a.2.1 - b.2.1) ^ 2 + (a.2.2 - b.2.2) ^ 2)

/-- The invariant claimed for every stored calibration point: its error
is nonnegative and equals the Euclidean distance between the predicted
and true world coordinates (both in centimetres). -/
def PointInvariant (p : CalibrationPoint) : Prop :=
  0 ≤ p.error_cm ∧ p.error_cm = dist_cm p.world_coords_predicted p.world_coords_true

instance : Inhabited CalibrationPoint :=
  ⟨{ label := "", pixel_coords := (0, 0), depth_meters := 0,
     world_coords_true := (0, 0, 0), world_coords_predicted := (0, 0, 0),
     error_cm := 0 }⟩

/-- A concrete freshly calibrated state: intrinsics set and the simple
overhead calibration at height 220 cm, with an empty point history. -/
def c9State : CalibratorState :=
  { initState with
      camera_intrinsics := some ⟨640, 480, 600, 600, 320, 240⟩
      T_world_camera :=
        some (define_simple_overhead_calibration 220 0 0 0 0 0).T_world_camera }

/-- The state after adding one concrete calibration point to `c9State`. -/
def c9Result : CalibratorState :=
  ((add_calibration_point c9State (10, 20) 2 (5, 5, 0) "corner").getD (c9State, 0)).1

/-- The parsed persisted calibration record: the dict written by
`save_calibration` and read back by `load_calibration`, with numpy
arrays already in their `tolist()` form. -/
structure CalibrationData where
  timestamp : String
  camera_height_cm : ℝ
  camera_position_world : List ℝ
  rotation_matrix : List (List ℝ)
  translation_vector : List (List ℝ)
  transformation_matrix : List (List ℝ)
  calibration_error_cm : Option ℝ
  calibration_points : List CalibrationPoint
  camera_intrinsics : Option Intrinsics
  depth_scale : Option ℝ

/-- `np.array` on a 3-element list of floats. -/
def np_array3 (l : List ℝ) : Fin 3 → ℝ := fun i => l.getD i 0

/-- `np.array` on a 3×3 nested list. -/
def np_array3x3 (l : List (List ℝ)) : Matrix (Fin 3) (Fin 3) ℝ :=
  Matrix.of fun i j => (l.getD i []).getD j 0

/-- `np.array` on a 3×1 nested list. -/
def np_array3x1 (l : List (List ℝ)) : Matrix (Fin 3) (Fin 1) ℝ :=
  Matrix.of fun i j => (l.getD i []).getD j 0

/-- `np.array` on a 4×4 nested list. -/
def np_array4x4 (l : List (List ℝ)) : Matrix (Fin 4) (Fin 4) ℝ :=
  Matrix.of fun i j => (l.getD i []).getD j 0

/-- `tolist()` of a 3-vector. -/
def vecToList (p : Fin 3 → ℝ) : List ℝ := [p 0, p 1, p 2]

/-- `tolist()` of a 3×3 matrix. -/
def mat3ToList (M : Matrix (Fin 3) (Fin 3) ℝ) : List (List ℝ) :=
  [[M 0 0, M 0 1, M 0 2], [M 1 0, M 1 1, M 1 2], [M 2 0, M 2 1, M 2 2]]

/-- `tolist()` of a 3×1 matrix. -/
def mat31ToList (M : Matrix (Fin 3) (Fin 1) ℝ) : List (List ℝ) :=
  [[M 0 0], [M 1 0], [M 2 0]]

/-- `tolist()` of a 4×4 matrix. -/
def mat4ToList (M : Matrix (Fin 4) (Fin 4) ℝ) : List (List ℝ) :=
  [[M 0 0, M 0 1, M 0 2, M 0 3], [M 1 0, M 1 1, M 1 2, M 1 3],
   [M 2 0, M 2 1, M 2 2, M 2 3], [M 3 0, M 3 1, M 3 2, M 3 3]]

/-- `WorldFrameCalibrator.save_calibration`: builds the persisted dict
from the live state (the timestamp comes from the external clock).  The
`none` result models the `AttributeError` crash when the calibration
attributes are still `None`; the intrinsics snapshot is written only
when intrinsics are set (the `if self.camera_intrinsics else None`
guard). -/
def save_calibration (timestamp : String) (s : CalibratorState) :
    Option CalibrationData :=
  match s.camera_height_cm, s.camera_position_world, s.rotation_matrix,
      s.translation_vector, s.T_world_camera with
  | some h, some pos, some R, some tr, some T =>
    some
      { timestamp := timestamp
        camera_height_cm := h
        camera_position_world := vecToList pos
        rotation_matrix := mat3ToList R
        translation_vector := mat31ToList tr
        transformation_matrix := mat4ToList T
        calibration_error_cm := s.calibration_error_cm
        calibration_points := s.calibration_points
        camera_intrinsics := s.camera_intrinsics
        depth_scale := s.depth_scale }
  | _, _, _, _, _ => none

/-- `WorldFrameCalibrator.load_calibration`: assigns the height,
position, rotation, translation, transform, stored error, point history
and depth scale from the parsed record.  It assigns nothing else; in
particular `camera_intrinsics` keeps its previous value. -/
def load_calibration (data : CalibrationData) (s : CalibratorState) : CalibratorState :=
  { s with
      camera_height_cm := some data.camera_height_cm
      camera_position_world := some (np_array3 data.camera_position_world)
      rotation_matrix := some (np_array3x3 data.rotation_matrix)
      translation_vector := some (np_array3x1 data.translation_vector)
      T_world_camera := some (np_array4x4 data.transformation_matrix)
      calibration_error_cm := data.calibration_error_cm
      calibration_points := data.calibration_points
      depth_scale := data.depth_scale }

/-- Python `range(0, n, step)` for a positive step: the multiples of
`step` below `n`, in increasing order. -/
def stepRange (n step : ℕ) : List ℕ := (List.range n).filter fun v => v % step == 0

/-- `WorldFrameCalibrator.depth_image_to_world_points`: scans the depth
image row-major, stepping by `subsample` in both axes; skips pixels with
zero raw depth; converts raw depth to metres with `depth_scale`; skips
the pixel when `depth_cm > max_distance_cm` (the filter compares the
depth, i.e. the camera-frame z coordinate, not the Euclidean distance);
deprojects and transforms the surviving pixels to world centimetres. -/
def depth_image_to_world_points (intr : Intrinsics) (depth_scale : ℝ)
    (T : Matrix (Fin 4) (Fin 4) ℝ) (depth_image : ℕ → ℕ → ℕ)
    (height width : ℕ) (subsample : ℕ) (max_distance_cm : ℝ) :
    List (Fin 3 → ℝ) :=
  (stepRange height subsample).flatMap fun v =>
    (stepRange width subsample).filterMap fun u =>
      let depth_value := depth_image v u
      if depth_value = 0 then none
      else
        let depth_meters := (depth_value : ℝ) * depth_scale
        let depth_cm := depth_meters * 100
        if depth_cm > max_distance_cm then none
        else
          some (camera_to_world_coordinates T
            (rs2_deproject_pixel_to_point intr u v depth_meters) true)

/-- The JSON value tree written by `json.dump` and read back by
`json.load`.  Python serialises ints and floats as distinct number
forms; `json.dump` followed by `json.load` preserves every float
exactly (floats are written with their shortest round-tripping
representation) and preserves dict key order, so a number node holds
the exact real value. -/
inductive Json where
  | null : Json
  | str : String → Json
  | int : ℤ → Json
  | num : ℝ → Json
  | arr : List Json → Json
  | obj : List (String × Json) → Json

/-- Decode a list of JSON number nodes back into floats. -/
def decodeNums : List Json → Option (List ℝ)
  | [] => some []
  | Json.num x :: rest => (decodeNums rest).map fun l => x :: l
  | _ => none

/-- Decode a JSON array of numbers (a serialised `tolist()` vector). -/
def numListFromJson : Json → Option (List ℝ)
  | .arr xs => decodeNums xs
  | _ => none

/-- Decode a list of JSON rows back into a nested float list. -/
def decodeNumLists : List Json → Option (List (List ℝ))
  | [] => some []
  | j :: rest =>
    match numListFromJson j with
    | some l => (decodeNumLists rest).map fun ls => l :: ls
    | none => none

/-- Decode a JSON array of arrays (a serialised `tolist()` matrix). -/
def numListsFromJson : Json → Option (List (List ℝ))
  | .arr xs => decodeNumLists xs
  | _ => none

/-- Serialise an optional float (`None` becomes JSON `null`). -/
def optNumToJson : Option ℝ → Json
  | none => .null
  | some x => .num x

/-- Decode an optional float. -/
def optNumFromJson : Json → Option (Option ℝ)
  | .null => some none
  | .num x => some (some x)
  | _ => none

/-- Serialise one calibration-point dict, keys in the order
`add_calibration_point` inserts them. -/
def pointToJson (p : CalibrationPoint) : Json :=
  .obj [("label", .str p.label),
        ("pixel_coords", .arr [.int p.pixel_coords.1, .int p.pixel_coords.2]),
        ("depth_meters", .num p.depth_meters),
        ("world_coords_true",
          .arr [.num p.world_coords_true.1, .num p.world_coords_true.2.1,
                .num p.world_coords_true.2.2]),
        ("world_coords_predicted",
          .arr [.num p.world_coords_predicted.1, .num p.world_coords_predicted.2.1,
                .num p.world_coords_predicted.2.2]),
        ("error_cm", .num p.error_cm)]

/-- Decode one calibration-point dict. -/
def pointFromJson : Json → Option CalibrationPoint
  | .obj [("label", .str l), ("pixel_coords", .arr [.int u, .int v]),
          ("depth_meters", .num d),
          ("world_coords_true", .arr [.num a, .num b, .num c]),
          ("world_coords_predicted", .arr [.num x, .num y, .num z]),
          ("error_cm", .num e)] =>
    some { label := l, pixel_coords := (u, v), depth_meters := d,
           world_coords_true := (a, b, c), world_coords_predicted := (x, y, z),
           error_cm := e }
  | _ => none

/-- Decode the serialised calibration-point list, preserving order. -/
def decodePoints : List Json → Option (List CalibrationPoint)
  | [] => some []
  | j :: rest =>
    match pointFromJson j with
    | some p => (decodePoints rest).map fun ps => p :: ps
    | none => none

/-- Serialise an optional intrinsics snapshot (the
`if self.camera_intrinsics else None` dict in `save_calibration`). -/
def intrinsicsToJson : Option Intrinsics → Json
  | none => .null
  | some i =>
    .obj [("width", .int i.width), ("height", .int i.height),
          ("fx", .num i.fx), ("fy", .num i.fy),
          ("ppx", .num i.ppx), ("ppy", .num i.ppy)]

/-- Decode an optional intrinsics snapshot. -/
def intrinsicsFromJson : Json → Option (Option Intrinsics)
  | .null => some none
  | .obj [("width", .int w), ("height", .int h),
          ("fx", .num fx), ("fy", .num fy),
          ("ppx", .num px), ("ppy", .num py)] =>
    some (some ⟨w, h, fx, fy, px, py⟩)
  | _ => none

/-- Serialise the full calibration record to its JSON value, keys in the
order `save_calibration` builds the dict. -/
def calibrationDataToJson (d : CalibrationData) : Json :=
  .obj [("timestamp", .str d.timestamp),
        ("camera_height_cm", .num d.camera_height_cm),
        ("camera_position_world", .arr (d.camera_position_world.map .num)),
        ("rotation_matrix",
          .arr (d.rotation_matrix.map fun r => .arr (r.map .num))),
        ("translation_vector",
          .arr (d.translation_vector.map fun r => .arr (r.map .num))),
        ("transformation_matrix",
          .arr (d.transformation_matrix.map fun r => .arr (r.map .num))),
        ("calibration_error_cm", optNumToJson d.calibration_error_cm),
        ("calibration_points", .arr (d.calibration_points.map pointToJson)),
        ("camera_intrinsics", intrinsicsToJson d.camera_intrinsics),
        ("depth_scale", optNumToJson d.depth_scale)]

/-- Decode a persisted JSON value back into a calibration record,
failing on any structurally invalid input. -/
def calibrationDataFromJson : Json → Option CalibrationData
  | .obj [("timestamp", .str ts),
          ("camera_height_cm", .num h),
          ("camera_position_world", pos),
          ("rotation_matrix", rot),
          ("translation_vector", tr),
          ("transformation_matrix", tm),
          ("calibration_error_cm", err),
          ("calibration_points", .arr pts),
          ("camera_intrinsics", ci),
          ("depth_scale", ds)] =>
    match numListFromJson pos, numListsFromJson rot, numListsFromJson tr,
        numListsFromJson tm, optNumFromJson err, decodePoints pts,
        intrinsicsFromJson ci, optNumFromJson ds with
    | some pos, some rot, some tr, some tm, some err, some pts, some ci, some ds =>
      some { timestamp := ts, camera_height_cm := h, camera_position_world := pos,
             rotation_matrix := rot, translation_vector := tr,
             transformation_matrix := tm, calibration_error_cm := err,
             calibration_points := pts, camera_intrinsics := ci,
             depth_scale := ds }
    | _, _, _, _, _, _, _, _ => none
  | _ => none

end WorldFrameCalibration

namespace CoordinateTransform

/-- Elementary rotation about the X axis (pitch) as built in
`CoordinateTransformer._build_rotation_matrix`. -/
def Rx (pitch : ℝ) : Matrix (Fin 3) (Fin 3) ℝ :=
  Matrix.of ![![1, 0, 0],
              ![0, Real.cos pitch, -Real.sin pitch],
              ![0, Real.sin pitch, Real.cos pitch]]

/-- Elementary rotation about the Y axis (yaw). -/
def Ry (yaw : ℝ) : Matrix (Fin 3) (Fin 3) ℝ :=
  Matrix.of ![![Real.cos yaw, 0, Real.sin yaw],
              ![0, 1, 0],
              ![-Real.sin yaw, 0, Real.cos yaw]]

/-- Elementary rotation about the Z axis (roll). -/
def Rz (roll : ℝ) : Matrix (Fin 3) (Fin 3) ℝ :=
  Matrix.of ![![Real.cos roll, -Real.sin roll, 0],
              ![Real.sin roll, Real.cos roll, 0],
              ![0, 0, 1]]

/-- The `R_flip = diag(1,-1,-1)` correction applied after the Euler
rotations in `_build_rotation_matrix`. -/
def R_flip : Matrix (Fin 3) (Fin 3) ℝ :=
  Matrix.of ![![1, 0, 0],
              ![0, -1, 0],
              ![0, 0, -1]]

/-- `CoordinateTransformer._build_rotation_matrix`: converts the angles
with `np.radians`, composes `Rz(roll) @ Ry(yaw) @ Rx(pitch)` and then
the flip on the right. -/
def build_rotation_matrix (pitch_deg roll_deg yaw_deg : ℝ) :
    Matrix (Fin 3) (Fin 3) ℝ :=
  let pitch := WorldFrameCalibration.radians pitch_deg
  let roll := WorldFrameCalibration.radians roll_deg
  let yaw := WorldFrameCalibration.radians yaw_deg
  Rz roll * Ry yaw * Rx pitch * R_flip

/-- `CoordinateTransformer.camera_to_world_coords`: applies the rotation
(`world = R @ camera_coords`) and then adds the camera height in metres
to the Z component (`world[2] += camera_height`). -/
def camera_to_world_coords (camera_height : ℝ)
    (R_cam_to_world : Matrix (Fin 3) (Fin 3) ℝ) (camera_coords : Fin 3 → ℝ) :
    Fin 3 → ℝ := fun i =>
  if i = 2 then R_cam_to_world.mulVec camera_coords i + camera_height
  else R_cam_to_world.mulVec camera_coords i

end CoordinateTransform

namespace WorldFrameCalibration

/-- Entry of the assembled homogeneous matrix inside the 3×3 block. -/
lemma assemble_block (R : Matrix (Fin 3) (Fin 3) ℝ) (t : Fin 3 → ℝ) (i j : Fin 3) :
    assembleHomogeneous R t i.castSucc j.castSucc = R i j := by
  simp [assembleHomogeneous]

/-- Entry of the assembled homogeneous matrix in the translation column. -/
lemma assemble_tr (R : Matrix (Fin 3) (Fin 3) ℝ) (t : Fin 3 → ℝ) (i : Fin 3) :
    assembleHomogeneous R t i.castSucc 3 = t i := by
  have h3 : ((3 : Fin 4) : ℕ) = 3 := rfl
  simp [assembleHomogeneous, h3]

/-- The bottom row of the assembled matrix keeps its `np.eye(4)` values. -/
lemma assemble_bottom (R : Matrix (Fin 3) (Fin 3) ℝ) (t : Fin 3 → ℝ) (j : Fin 4) :
    assembleHomogeneous R t 3 j = (1 : Matrix (Fin 4) (Fin 4) ℝ) 3 j := by
  have h3 : ((3 : Fin 4) : ℕ) = 3 := rfl
  simp [assembleHomogeneous, h3]

/-- Block entry at column literal `0`. -/
lemma assemble_c0 (R : Matrix (Fin 3) (Fin 3) ℝ) (t : Fin 3 → ℝ) (i : Fin 3) :
    assembleHomogeneous R t i.castSucc 0 = R i 0 := by
  have h : (0 : Fin 4) = (0 : Fin 3).castSucc := rfl
  rw [h, assemble_block]

/-- Block entry at column literal `1`. -/
lemma assemble_c1 (R : Matrix (Fin 3) (Fin 3) ℝ) (t : Fin 3 → ℝ) (i : Fin 3) :
    assembleHomogeneous R t i.castSucc 1 = R i 1 := by
  have h : (1 : Fin 4) = (1 : Fin 3).castSucc := rfl
  rw [h, assemble_block]

/-- Block entry at column literal `2`. -/
lemma assemble_c2 (R : Matrix (Fin 3) (Fin 3) ℝ) (t : Fin 3 → ℝ) (i : Fin 3) :
    assembleHomogeneous R t i.castSucc 2 = R i 2 := by
  have h : (2 : Fin 4) = (2 : Fin 3).castSucc := rfl
  rw [h, assemble_block]

/-- Applying the assembled homogeneous transform to a homogeneous point:
row `i` of the result is the rotation row applied to the point plus the
translation entry. -/
lemma assemble_mulVec_apply (R : Matrix (Fin 3) (Fin 3) ℝ) (t : Fin 3 → ℝ) (p : Fin 3 → ℝ)
    (i : Fin 3) :
    (assembleHomogeneous R t).mulVec (toHomogeneous p) i.castSucc
      = R i 0 * p 0 + R i 1 * p 1 + R i 2 * p 2 + t i := by
  rw [Matrix.mulVec, Matrix.dotProduct, Fin.sum_univ_four,
    assemble_c0, assemble_c1, assemble_c2, assemble_tr]
  simp [toHomogeneous]

/-- With all three Euler angles zero, the composed rotation collapses to
the fixed axis flip. -/
lemma rotation_zero_angles : Rz (radians 0) * Ry (radians 0) * Rx (radians 0) * R_flip = R_flip := by
  have h : radians 0 = 0 := by simp [radians]
  rw [h]
  ext i j
  fin_cases i <;> fin_cases j <;>
    simp [Rx, Ry, Rz, R_flip, Matrix.mul_apply, Fin.sum_univ_three]

/-- Componentwise value of the metres-mode world transform. -/
lemma camera_to_world_m_apply (R : Matrix (Fin 3) (Fin 3) ℝ) (t p : Fin 3 → ℝ) (i : Fin 3) :
    camera_to_world_coordinates (assembleHomogeneous R t) p false i
      = R i 0 * p 0 + R i 1 * p 1 + R i 2 * p 2 + t i := by
  have e : camera_to_world_coordinates (assembleHomogeneous R t) p false i
      = (assembleHomogeneous R t).mulVec (toHomogeneous p) i.castSucc := by
    fin_cases i <;> rfl
  rw [e, assemble_mulVec_apply]

/-- Componentwise value of the centimetres-mode world transform. -/
lemma camera_to_world_cm_apply (R : Matrix (Fin 3) (Fin 3) ℝ) (t p : Fin 3 → ℝ) (i : Fin 3) :
    camera_to_world_coordinates (assembleHomogeneous R t) p true i
      = (R i 0 * p 0 + R i 1 * p 1 + R i 2 * p 2 + t i) * 100 := by
  have e : camera_to_world_coordinates (assembleHomogeneous R t) p true i
      = camera_to_world_coordinates (assembleHomogeneous R t) p false i * 100 := by
    fin_cases i <;> rfl
  rw [e, camera_to_world_m_apply]

/-- The transform built by an all-zero-angle pose at height `H` over
position `(0,0)`. -/
lemma simple_overhead_T_zero (H : ℝ) :
    (define_simple_overhead_calibration H 0 0 0 0 0).T_world_camera
      = assembleHomogeneous R_flip ![0 / 100, 0 / 100, H / 100] := by
  simp only [define_simple_overhead_calibration, rotation_zero_angles]

/-- The number of positions `range(0, n, step)` visits is
`ceil(n / step) = (n + step - 1) / step`. -/
lemma stepRange_length (step : ℕ) (hs : 0 < step) :
    ∀ n, (stepRange n step).length = (n + step - 1) / step := by
  intro n
  induction n with
  | zero =>
    simp [stepRange, Nat.div_eq_of_lt (by omega : step - 1 < step)]
  | succ n ih =>
    rw [stepRange, List.range_succ, List.filter_append, List.length_append]
    rw [stepRange] at ih
    rw [ih]
    have hq := Nat.div_add_mod n step
    rcases Nat.eq_zero_or_pos (n % step) with h0 | hpos
    · have e1 : n + 1 + step - 1 = step * (n / step) + step := by omega
      have e2 : n + step - 1 = step * (n / step) + (step - 1) := by omega
      rw [e1, e2, Nat.mul_add_div hs, Nat.mul_add_div hs,
        Nat.div_eq_of_lt (by omega : step - 1 < step),
        Nat.div_self hs]
      simp [List.filter, h0]
    · have hr : n % step < step := Nat.mod_lt _ hs
      have e1 : n + 1 + step - 1 = step * (n / step) + (n % step + step) := by omega
      have e2 : n + step - 1 = step * (n / step) + (n % step + step - 1) := by omega
      rw [e1, e2, Nat.mul_add_div hs, Nat.mul_add_div hs]
      have d1 : (n % step + step) / step = 1 :=
        Nat.div_eq_of_lt_le (by omega) (by omega)
      have d2 : (n % step + step - 1) / step = 1 :=
        Nat.div_eq_of_lt_le (by omega) (by omega)
      rw [d1, d2]
      have hne : ¬ (n % step == 0) = true := by simp [Nat.pos_iff_ne_zero.mp hpos]
      simp [List.filter, hne]

/-- Every point emitted by the batch conversion comes from a visited
pixel whose raw depth is nonzero and whose depth in centimetres is at
most `max_distance_cm` (the boundary `depth_cm = max_distance_cm` is
included). -/
lemma depth_image_mem (intr : Intrinsics) (depth_scale : ℝ)
    (T : Matrix (Fin 4) (Fin 4) ℝ) (depth_image : ℕ → ℕ → ℕ)
    (height width subsample : ℕ) (max_distance_cm : ℝ) (p : Fin 3 → ℝ)
    (hp : p ∈ depth_image_to_world_points intr depth_scale T depth_image
        height width subsample max_distance_cm) :
    ∃ v ∈ stepRange height subsample, ∃ u ∈ stepRange width subsample,
      depth_image v u ≠ 0
      ∧ ¬((depth_image v u : ℝ) * depth_scale * 100 > max_distance_cm)
      ∧ p = camera_to_world_coordinates T
          (rs2_deproject_pixel_to_point intr u v
            ((depth_image v u : ℝ) * depth_scale)) true := by
  rw [depth_image_to_world_points, List.mem_flatMap] at hp
  obtain ⟨v, hv, hp⟩ := hp
  rw [List.mem_filterMap] at hp
  obtain ⟨u, hu, hsome⟩ := hp
  refine ⟨v, hv, u, hu, ?_⟩
  by_cases h0 : depth_image v u = 0
  · simp [h0] at hsome
  · by_cases hfar : (depth_image v u : ℝ) * depth_scale * 100 > max_distance_cm
    · simp [h0, hfar] at hsome
    · simp only [h0, hfar, if_neg, if_false, Option.some.injEq] at hsome
      exact ⟨h0, hfar, hsome.symm⟩

/-- A `filterMap` whose function always succeeds on the list is a `map`. -/
lemma filterMap_eq_map_of_forall {α β : Type} (f : α → Option β) (g : α → β)
    (l : List α) (h : ∀ a ∈ l, f a = some (g a)) : l.filterMap f = l.map g := by
  induction l with
  | nil => rfl
  | cons x xs ih =>
    rw [List.filterMap_cons, h x (by simp), List.map_cons,
      ih fun a ha => h a (by simp [ha])]

/-- The two source files build literally identical rotation matrices
(same elementary matrices, same composition order, same flip). -/
lemma rotation_matrices_agree (pitch_deg roll_deg yaw_deg : ℝ) :
    CoordinateTransform.build_rotation_matrix pitch_deg roll_deg yaw_deg
      = Rz (radians roll_deg) * Ry (radians yaw_deg) * Rx (radians pitch_deg) * R_flip :=
  rfl

/-- Componentwise agreement of the two transform pipelines: for the same
camera point (metres), the same angles (tilt=pitch, pan=yaw, same roll),
camera height `h` metres (= `100·h` centimetres for the calibrator), and
calibrator position `(0,0)`, the `CoordinateTransformer` output equals
the metres-mode `WorldFrameCalibrator` output. -/
lemma transforms_agree (p : Fin 3 → ℝ) (h pitch yaw roll : ℝ) (i : Fin 3) :
    CoordinateTransform.camera_to_world_coords h
        (CoordinateTransform.build_rotation_matrix pitch roll yaw) p i
      = camera_to_world_coordinates
          (define_simple_overhead_calibration (100 * h) 0 0 pitch yaw roll).T_world_camera
          p false i := by
  have hT : (define_simple_overhead_calibration (100 * h) 0 0 pitch yaw roll).T_world_camera
      = assembleHomogeneous
          (Rz (radians roll) * Ry (radians yaw) * Rx (radians pitch) * R_flip)
          ![0 / 100, 0 / 100, 100 * h / 100] := rfl
  rw [hT, camera_to_world_m_apply, CoordinateTransform.camera_to_world_coords,
    rotation_matrices_agree]
  set R := Rz (radians roll) * Ry (radians yaw) * Rx (radians pitch) * R_flip with hR
  have hmv : R.mulVec p i = R i 0 * p 0 + R i 1 * p 1 + R i 2 * p 2 := by
    rw [Matrix.mulVec, Matrix.dotProduct, Fin.sum_univ_three]
  rcases eq_or_ne i 2 with h2 | h2
  · subst h2
    rw [if_pos rfl, hmv]
    norm_num
  · rw [if_neg h2, hmv]
    fin_cases i
    · norm_num
    · norm_num
    · simp at h2

/-- Decoding a serialised float list restores it exactly. -/
lemma decodeNums_toJson (l : List ℝ) : decodeNums (l.map Json.num) = some l := by
  induction l with
  | nil => rfl
  | cons x xs ih => simp [decodeNums, ih]

/-- Decoding a serialised vector restores it exactly. -/
lemma numListFromJson_toJson (l : List ℝ) :
    numListFromJson (Json.arr (l.map Json.num)) = some l := by
  simp [numListFromJson, decodeNums_toJson]

/-- Decoding a serialised matrix restores it exactly. -/
lemma decodeNumLists_toJson (l : List (List ℝ)) :
    decodeNumLists (l.map fun r => Json.arr (r.map Json.num)) = some l := by
  induction l with
  | nil => rfl
  | cons r rs ih => simp [decodeNumLists, numListFromJson_toJson, ih]

/-- Decoding a serialised calibration point restores it exactly. -/
lemma pointFromJson_toJson (p : CalibrationPoint) :
    pointFromJson (pointToJson p) = some p := by
  rcases p with ⟨l, ⟨u, v⟩, d, ⟨a, b, c⟩, ⟨x, y, z⟩, e⟩
  rfl

/-- Decoding a serialised point list restores it in order. -/
lemma decodePoints_toJson (ps : List CalibrationPoint) :
    decodePoints (ps.map pointToJson) = some ps := by
  induction ps with
  | nil => rfl
  | cons p rest ih => simp [decodePoints, pointFromJson_toJson, ih]

/-- Decoding a serialised optional float restores it exactly. -/
lemma optNumFromJson_toJson (o : Option ℝ) :
    optNumFromJson (optNumToJson o) = some o := by
  cases o <;> rfl

/-- Decoding a serialised intrinsics snapshot restores it exactly. -/
lemma intrinsicsFromJson_toJson (o : Option Intrinsics) :
    intrinsicsFromJson (intrinsicsToJson o) = some o := by
  rcases o with _ | ⟨w, h, fx, fy, px, py⟩ <;> rfl

/-- C1: with three calibration points of errors `[1, 2, 3]`,
`validate_calibration` returns `num_points = 3`, `mean = 2`,
population standard deviation `sqrt(2/3)`, `min = 1`, `max = 3` and
`rmse = sqrt(14/3)`; moreover `sqrt(2/3)` lies in `(0.816, 0.817)` and
`sqrt(14/3)` in `(2.160, 2.161)`, matching the quoted approximations. -/
theorem C1_validator_statistics (p1 p2 p3 : CalibrationPoint)
    (h1 : p1.error_cm = 1) (h2 : p2.error_cm = 2) (h3 : p3.error_cm = 3) :
    validate_calibration [p1, p2, p3]
      = some
          { num_points := 3
            mean_error_cm := 2
            std_error_cm := Real.sqrt (2 / 3)
            max_error_cm := 3
            min_error_cm := 1
            rmse_cm := Real.sqrt (14 / 3) }
    ∧ (0.816 < Real.sqrt (2 / 3) ∧ Real.sqrt (2 / 3) < 0.817)
    ∧ (2.160 < Real.sqrt (14 / 3) ∧ Real.sqrt (14 / 3) < 2.161) := by
  refine ⟨?_, ⟨?_, ?_⟩, ⟨?_, ?_⟩⟩
  · simp only [validate_calibration, List.length_cons, List.length_nil, List.map_cons,
      List.map_nil, h1, h2, h3]
    norm_num [npMean, npStd, npMax, npMin, ValidationMetrics.mk.injEq]
  · rw [show (0.816 : ℝ) = Real.sqrt (0.816 ^ 2) from
      (Real.sqrt_sq (by norm_num)).symm]
    exact Real.sqrt_lt_sqrt (by norm_num) (by norm_num)
  · rw [show (0.817 : ℝ) = Real.sqrt (0.817 ^ 2) from
      (Real.sqrt_sq (by norm_num)).symm]
    exact Real.sqrt_lt_sqrt (by norm_num) (by norm_num)
  · rw [show (2.160 : ℝ) = Real.sqrt (2.160 ^ 2) from
      (Real.sqrt_sq (by norm_num)).symm]
    exact Real.sqrt_lt_sqrt (by norm_num) (by norm_num)
  · rw [show (2.161 : ℝ) = Real.sqrt (2.161 ^ 2) from
      (Real.sqrt_sq (by norm_num)).symm]
    exact Real.sqrt_lt_sqrt (by norm_num) (by norm_num)

/-- C1 witness: the statistics theorem applied to three concrete
calibration points with errors 1, 2 and 3. -/
theorem C1_validator_statistics_witness :
    validate_calibration
        [{ label := "a", pixel_coords := (0, 0), depth_meters := 0,
           world_coords_true := (0, 0, 0), world_coords_predicted := (0, 0, 0),
           error_cm := 1 },
         { label := "b", pixel_coords := (0, 0), depth_meters := 0,
           world_coords_true := (0, 0, 0), world_coords_predicted := (0, 0, 0),
           error_cm := 2 },
         { label := "c", pixel_coords := (0, 0), depth_meters := 0,
           world_coords_true := (0, 0, 0), world_coords_predicted := (0, 0, 0),
           error_cm := 3 }]
      = some
          { num_points := 3
            mean_error_cm := 2
            std_error_cm := Real.sqrt (2 / 3)
            max_error_cm := 3
            min_error_cm := 1
            rmse_cm := Real.sqrt (14 / 3) }
    ∧ (0.816 < Real.sqrt (2 / 3) ∧ Real.sqrt (2 / 3) < 0.817)
    ∧ (2.160 < Real.sqrt (14 / 3) ∧ Real.sqrt (14 / 3) < 2.161) :=
  C1_validator_statistics _ _ _ rfl rfl rfl

/-- C2 counterexample: with an empty calibration-point history the code
returns `None` (a null result); it does not raise
`NoCalibrationPointsError` as the claim states. -/
theorem C2_counterexample_empty_returns_null :
    validate_calibration [] = none := rfl

/-- C2 amended: calling `validate_calibration` with an empty history
returns `None` rather than raising an error. -/
theorem C2_empty_validator (calibration_points : List CalibrationPoint)
    (h : calibration_points.length = 0) :
    validate_calibration calibration_points = none := by
  simp [validate_calibration, h]

/-- C2 witness: the amended theorem applied to the empty history. -/
theorem C2_empty_validator_witness :
    validate_calibration ([] : List CalibrationPoint) = none :=
  C2_empty_validator [] rfl

/-- C3: for every pose, the built rigid transform has rotation block
`Rz(roll)·Ry(pan)·Rx(tilt)·diag(1,-1,-1)`, translation column equal to
the camera's world position (height in the Z component), and bottom row
`[0,0,0,1]`. -/
theorem C3_rigid_transform_structure
    (H x y tilt pan roll : ℝ) :
    (∀ i j : Fin 3,
        (define_simple_overhead_calibration H x y tilt pan roll).T_world_camera
            i.castSucc j.castSucc
          = (Rz (radians roll) * Ry (radians pan) * Rx (radians tilt) * R_flip) i j)
    ∧ (∀ i : Fin 3,
        (define_simple_overhead_calibration H x y tilt pan roll).T_world_camera i.castSucc 3
          = (define_simple_overhead_calibration H x y tilt pan roll).camera_position_world i)
    ∧ (define_simple_overhead_calibration H x y tilt pan roll).camera_position_world
        = ![x / 100, y / 100, H / 100]
    ∧ (define_simple_overhead_calibration H x y tilt pan roll).rotation_matrix
        = Rz (radians roll) * Ry (radians pan) * Rx (radians tilt) * R_flip
    ∧ (define_simple_overhead_calibration H x y tilt pan roll).T_world_camera 3 0 = 0
    ∧ (define_simple_overhead_calibration H x y tilt pan roll).T_world_camera 3 1 = 0
    ∧ (define_simple_overhead_calibration H x y tilt pan roll).T_world_camera 3 2 = 0
    ∧ (define_simple_overhead_calibration H x y tilt pan roll).T_world_camera 3 3 = 1 := by
  refine ⟨fun i j => ?_, fun i => ?_, rfl, rfl, ?_, ?_, ?_, ?_⟩
  · exact assemble_block _ _ i j
  · exact assemble_tr _ _ i
  all_goals
    rw [show (define_simple_overhead_calibration H x y tilt pan roll).T_world_camera
          = assembleHomogeneous
              (Rz (radians roll) * Ry (radians pan) * Rx (radians tilt) * R_flip)
              ![x / 100, y / 100, H / 100] from rfl, assemble_bottom]
  all_goals simp [Matrix.one_apply]

/-- C4: for a pose with height `H` (centimetres), all angles zero and
position `(0,0)`, the camera point `(0,0,d)` maps to world
`(0,0,H/100-d)` in metres and `(0,0,H-100·d)` in centimetres, and the
ground-plane point with `d = H/100` maps to world `z = 0` exactly. -/
theorem C4_height_translation (H d : ℝ) :
    camera_to_world_coordinates
        (define_simple_overhead_calibration H 0 0 0 0 0).T_world_camera
        ![0, 0, d] false = ![0, 0, H / 100 - d]
    ∧ camera_to_world_coordinates
        (define_simple_overhead_calibration H 0 0 0 0 0).T_world_camera
        ![0, 0, d] true = ![0, 0, H - 100 * d]
    ∧ camera_to_world_coordinates
        (define_simple_overhead_calibration H 0 0 0 0 0).T_world_camera
        ![0, 0, H / 100] true 2 = 0 := by
  refine ⟨?_, ?_, ?_⟩
  · funext i
    rw [simple_overhead_T_zero, camera_to_world_m_apply]
    fin_cases i <;> norm_num [R_flip] <;> ring
  · funext i
    rw [simple_overhead_T_zero, camera_to_world_cm_apply]
    fin_cases i <;> norm_num [R_flip] <;> ring
  · rw [simple_overhead_T_zero, camera_to_world_cm_apply]
    norm_num [R_flip]

set_option maxHeartbeats 1000000 in
/-- C5: persisting a calibration record and loading it back restores
every field exactly — the pose scalars, the rotation, translation and
4×4 transform matrices, the intrinsics snapshot, the depth scale, the
stored error, and the calibration-point list in its original order, with
every float preserved exactly (hence well within 1e-9 relative
precision). -/
theorem C5_record_round_trip (d : CalibrationData) :
    calibrationDataFromJson (calibrationDataToJson d) = some d := by
  rcases d with ⟨ts, h, pos, rot, tr, tm, err, pts, ci, ds⟩
  simp only [calibrationDataToJson, calibrationDataFromJson]
  rw [numListFromJson_toJson]
  simp only [numListsFromJson, decodeNumLists_toJson, optNumFromJson_toJson,
    decodePoints_toJson, intrinsicsFromJson_toJson]

/-- C6 counterexample: with intrinsics `fx=fy=1, ppx=ppy=0`, depth scale
3 and `max_distance_cm = 300`, the pixel `(u,v) = (1,0)` of a constant
depth-1 image deprojects to the camera point `(3,0,3)` whose Euclidean
distance from the camera is `100·sqrt 18 ≈ 424 cm > 300 cm`, yet its
world point is emitted by the batch conversion: the filter compares the
depth (300 cm), not the camera-frame distance. -/
theorem C6_counterexample_distance_not_filtered :
    camera_to_world_coordinates
        (define_simple_overhead_calibration 220 0 0 0 0 0).T_world_camera
        (rs2_deproject_pixel_to_point ⟨2, 1, 1, 1, 0, 0⟩ 1 0 3) true
      ∈ depth_image_to_world_points ⟨2, 1, 1, 1, 0, 0⟩ 3
          (define_simple_overhead_calibration 220 0 0 0 0 0).T_world_camera
          (fun _ _ => 1) 1 2 1 300
    ∧ 100 * linalg_norm (rs2_deproject_pixel_to_point ⟨2, 1, 1, 1, 0, 0⟩ 1 0 3)
        > 300 := by
  constructor
  · have hsr1 : stepRange 1 1 = [0] := rfl
    have hsr2 : stepRange 2 1 = [0, 1] := rfl
    rw [depth_image_to_world_points, hsr1, hsr2]
    norm_num [List.mem_flatMap, List.mem_filterMap]
  · have he : linalg_norm (rs2_deproject_pixel_to_point ⟨2, 1, 1, 1, 0, 0⟩ 1 0 3)
        = Real.sqrt 18 := by
      norm_num [linalg_norm, rs2_deproject_pixel_to_point]
    rw [he]
    have h9 : (3 : ℝ) = Real.sqrt 9 := by
      rw [show (9 : ℝ) = 3 ^ 2 by norm_num, Real.sqrt_sq (by norm_num)]
    nlinarith [Real.sqrt_lt_sqrt (by norm_num : (0:ℝ) ≤ 9) (by norm_num : (9:ℝ) < 18),
      Real.sqrt_nonneg 18, h9]

/-- C6 amended: the batch conversion skips every pixel with zero raw
depth, and filters on the depth (camera-frame z) in centimetres, not on
the Euclidean camera-frame distance: a point is emitted only from a
visited pixel with nonzero depth and `depth_cm ≤ max_distance_cm`, the
boundary `depth_cm = max_distance_cm` being included. -/
theorem C6_max_distance_filter (intr : Intrinsics) (depth_scale : ℝ)
    (T : Matrix (Fin 4) (Fin 4) ℝ) (depth_image : ℕ → ℕ → ℕ)
    (height width subsample : ℕ) (max_distance_cm : ℝ) :
    ∀ p ∈ depth_image_to_world_points intr depth_scale T depth_image
        height width subsample max_distance_cm,
      ∃ v ∈ stepRange height subsample, ∃ u ∈ stepRange width subsample,
        depth_image v u ≠ 0
        ∧ (depth_image v u : ℝ) * depth_scale * 100 ≤ max_distance_cm
        ∧ p = camera_to_world_coordinates T
            (rs2_deproject_pixel_to_point intr u v
              ((depth_image v u : ℝ) * depth_scale)) true := by
  intro p hp
  obtain ⟨v, hv, u, hu, h0, hle, hpt⟩ :=
    depth_image_mem intr depth_scale T depth_image height width subsample
      max_distance_cm p hp
  exact ⟨v, hv, u, hu, h0, not_lt.mp hle, hpt⟩

/-- C6 witness: the amended theorem applied to a concrete emitted point
of the boundary input (depth scale 3, `max_distance_cm = 300`, so
`depth_cm = 300` exactly): the boundary pixel is included and traced
back to a visited pixel whose depth passes the inclusive filter. -/
theorem C6_max_distance_filter_witness :
    ∃ v ∈ stepRange 1 1, ∃ u ∈ stepRange 2 1,
      (fun _ _ => 1 : ℕ → ℕ → ℕ) v u ≠ 0
      ∧ ((fun _ _ => 1 : ℕ → ℕ → ℕ) v u : ℝ) * 3 * 100 ≤ 300
      ∧ camera_to_world_coordinates
            (define_simple_overhead_calibration 220 0 0 0 0 0).T_world_camera
            (rs2_deproject_pixel_to_point ⟨2, 1, 1, 1, 0, 0⟩ 1 0 3) true
        = camera_to_world_coordinates
            (define_simple_overhead_calibration 220 0 0 0 0 0).T_world_camera
            (rs2_deproject_pixel_to_point ⟨2, 1, 1, 1, 0, 0⟩ u v
              (((fun _ _ => 1 : ℕ → ℕ → ℕ) v u : ℝ) * 3)) true := by
  apply C6_max_distance_filter ⟨2, 1, 1, 1, 0, 0⟩ 3
    (define_simple_overhead_calibration 220 0 0 0 0 0).T_world_camera
    (fun _ _ => 1) 1 2 1 300
  have hsr1 : stepRange 1 1 = [0] := rfl
  have hsr2 : stepRange 2 1 = [0, 1] := rfl
  rw [depth_image_to_world_points, hsr1, hsr2]
  norm_num [List.mem_flatMap, List.mem_filterMap]

/-- C7: the batch conversion visits `ceil(height/subsample) ×
ceil(width/subsample)` pixel positions; on a constant nonzero depth
image that passes the distance filter it emits exactly that many points,
and under the all-zero-angle overhead pose at height `H` every emitted
point has world `z = H - depth_cm`. -/
theorem C7_subsample_grid (height width subsample : ℕ) (hs : 0 < subsample)
    (intr : Intrinsics) (depth_scale H max_distance_cm : ℝ) (k : ℕ)
    (hk : k ≠ 0) (hmax : ¬((k : ℝ) * depth_scale * 100 > max_distance_cm)) :
    (depth_image_to_world_points intr depth_scale
        (define_simple_overhead_calibration H 0 0 0 0 0).T_world_camera
        (fun _ _ => k) height width subsample max_distance_cm).length
      = ((height + subsample - 1) / subsample) * ((width + subsample - 1) / subsample)
    ∧ ∀ p ∈ depth_image_to_world_points intr depth_scale
        (define_simple_overhead_calibration H 0 0 0 0 0).T_world_camera
        (fun _ _ => k) height width subsample max_distance_cm,
        p 2 = H - 100 * ((k : ℝ) * depth_scale) := by
  constructor
  · rw [depth_image_to_world_points, List.length_flatMap]
    have hcongr :
        ∀ v ∈ stepRange height subsample,
          (List.length ∘ fun v : ℕ =>
            (stepRange width subsample).filterMap fun u : ℕ =>
              if k = 0 then none
              else if (k : ℝ) * depth_scale * 100 > max_distance_cm then none
              else some (camera_to_world_coordinates
                (define_simple_overhead_calibration H 0 0 0 0 0).T_world_camera
                (rs2_deproject_pixel_to_point intr (u : ℝ) (v : ℝ)
                  ((k : ℝ) * depth_scale)) true)) v
          = (width + subsample - 1) / subsample := by
      intro v hv
      simp only [Function.comp_apply]
      rw [filterMap_eq_map_of_forall _
          (fun u : ℕ => camera_to_world_coordinates
            (define_simple_overhead_calibration H 0 0 0 0 0).T_world_camera
            (rs2_deproject_pixel_to_point intr (u : ℝ) (v : ℝ)
              ((k : ℝ) * depth_scale)) true)
          _ (fun u hu => by rw [if_neg hk, if_neg hmax]),
        List.length_map, stepRange_length subsample hs]
    rw [List.map_congr_left hcongr, List.map_const', List.sum_replicate, smul_eq_mul,
      stepRange_length subsample hs]
  · intro p hp
    obtain ⟨v, hv, u, hu, h0, hle, hpt⟩ :=
      depth_image_mem intr depth_scale
        (define_simple_overhead_calibration H 0 0 0 0 0).T_world_camera
        (fun _ _ => k) height width subsample max_distance_cm p hp
    subst hpt
    rw [simple_overhead_T_zero, camera_to_world_cm_apply]
    norm_num [R_flip, rs2_deproject_pixel_to_point, Matrix.vecHead, Matrix.vecTail]
    ring

/-- C7 witness: for a 10×10 constant-depth image with `subsample = 2`
the batch conversion emits exactly `ceil(10/2)·ceil(10/2) = 25` points,
all with world `z = 220 - 200 = 20` centimetres. -/
theorem C7_subsample_grid_witness :
    (depth_image_to_world_points ⟨10, 10, 600, 600, 5, 5⟩ 2
        (define_simple_overhead_calibration 220 0 0 0 0 0).T_world_camera
        (fun _ _ => 1) 10 10 2 300).length = 25
    ∧ ∀ p ∈ depth_image_to_world_points ⟨10, 10, 600, 600, 5, 5⟩ 2
        (define_simple_overhead_calibration 220 0 0 0 0 0).T_world_camera
        (fun _ _ => 1) 10 10 2 300,
        p 2 = 20 := by
  have h := C7_subsample_grid 10 10 2 (by norm_num) ⟨10, 10, 600, 600, 5, 5⟩ 2 220 300 1
    (by norm_num) (by norm_num)
  constructor
  · have h1 := h.1
    norm_num at h1
    exact h1
  · intro p hp
    have h2 := h.2 p hp
    norm_num at h2
    exact h2

/-- C8 counterexample: the claim of divergence is false — there are no
inputs on which the two active implementations disagree on the Y or Z
world coordinate (the centimetres-first variant quoted by the spec is
dead code inside a string literal in `world_frame_calibration.py`). -/
theorem C8_counterexample_no_divergence :
    ¬ ∃ (p : Fin 3 → ℝ) (h pitch yaw roll : ℝ),
      CoordinateTransform.camera_to_world_coords h
          (CoordinateTransform.build_rotation_matrix pitch roll yaw) p 1
        ≠ camera_to_world_coordinates
            (define_simple_overhead_calibration (100 * h) 0 0 pitch yaw roll).T_world_camera
            p false 1
      ∨ CoordinateTransform.camera_to_world_coords h
          (CoordinateTransform.build_rotation_matrix pitch roll yaw) p 2
        ≠ camera_to_world_coordinates
            (define_simple_overhead_calibration (100 * h) 0 0 pitch yaw roll).T_world_camera
            p false 2 := by
  rintro ⟨p, h, pitch, yaw, roll, hne | hne⟩ <;>
    exact hne (transforms_agree p h pitch yaw roll _)

/-- C8 amended: for identical inputs (same camera point, tilt=pitch,
pan=yaw, same roll, matching heights, calibrator position `(0,0)`), the
two active implementations agree exactly on all three world
coordinates. -/
theorem C8_transforms_equivalent (p : Fin 3 → ℝ) (h pitch yaw roll : ℝ) :
    CoordinateTransform.camera_to_world_coords h
        (CoordinateTransform.build_rotation_matrix pitch roll yaw) p
      = camera_to_world_coordinates
          (define_simple_overhead_calibration (100 * h) 0 0 pitch yaw roll).T_world_camera
          p false := by
  funext i
  exact transforms_agree p h pitch yaw roll i

/-- C9: `add_calibration_point` preserves the error invariant: whenever
every point already in the history has `error_cm` equal to the Euclidean
distance between predicted and true world coordinates (hence ≥ 0), the
same holds for every point after the append-only add. -/
theorem C9_error_invariant (s : CalibratorState) (pixel_coords : ℤ × ℤ)
    (depth_meters : ℝ) (world_coords : ℝ × ℝ × ℝ) (label : String)
    (hinv : ∀ p ∈ s.calibration_points, PointInvariant p) :
    ∀ r ∈ add_calibration_point s pixel_coords depth_meters world_coords label,
      ∀ p ∈ r.1.calibration_points, PointInvariant p := by
  intro r hr p hp
  rcases hi : s.camera_intrinsics with _ | intr <;>
    rcases hT : s.T_world_camera with _ | T <;>
    simp [add_calibration_point, hi, hT] at hr
  subst hr
  simp only at hp
  rcases List.mem_append.mp hp with hold | hnew
  · exact hinv p hold
  · rcases List.mem_singleton.mp hnew with rfl
    constructor
    · exact Real.sqrt_nonneg _
    · simp [linalg_norm, dist_cm]

/-- C9 witness: the invariant-preservation theorem applied to a freshly
calibrated state with an empty history and one concrete added point; the
single point of the resulting history satisfies the invariant. -/
theorem C9_error_invariant_witness :
    PointInvariant (c9Result.calibration_points.headI) := by
  have h := C9_error_invariant c9State (10, 20) 2 (5, 5, 0) "corner"
    (by simp [c9State, initState])
  have hr : ((add_calibration_point c9State (10, 20) 2 (5, 5, 0)
      "corner").getD (c9State, 0))
      ∈ add_calibration_point c9State (10, 20) 2 (5, 5, 0) "corner" :=
    Option.mem_def.mpr rfl
  have hmem : c9Result.calibration_points.headI ∈ c9Result.calibration_points := by
    simp [c9Result, c9State, initState, add_calibration_point]
  exact h _ hr _ hmem

/-- C10: loading restores pose, matrices, stored error, history and
depth scale but leaves `camera_intrinsics` at its pre-load value, even
though saving snapshots the intrinsics into the record; consequently
pixel deprojection on a freshly constructed then loaded calibrator still
fails for missing intrinsics. -/
theorem C10_load_skips_intrinsics (data : CalibrationData) (s : CalibratorState) :
    (load_calibration data s).camera_intrinsics = s.camera_intrinsics
    ∧ (load_calibration data s).camera_height_cm = some data.camera_height_cm
    ∧ (load_calibration data s).camera_position_world
        = some (np_array3 data.camera_position_world)
    ∧ (load_calibration data s).rotation_matrix = some (np_array3x3 data.rotation_matrix)
    ∧ (load_calibration data s).translation_vector
        = some (np_array3x1 data.translation_vector)
    ∧ (load_calibration data s).T_world_camera
        = some (np_array4x4 data.transformation_matrix)
    ∧ (load_calibration data s).calibration_error_cm = data.calibration_error_cm
    ∧ (load_calibration data s).calibration_points = data.calibration_points
    ∧ (load_calibration data s).depth_scale = data.depth_scale
    ∧ (∀ u v depth_meters : ℝ,
        pixel_to_camera_coordinates (load_calibration data initState) u v depth_meters
          = none)
    ∧ (∀ ts : String,
        (save_calibration ts s).map (fun r => r.camera_intrinsics)
          = (save_calibration ts s).map (fun _ => s.camera_intrinsics)) := by
  refine ⟨rfl, rfl, rfl, rfl, rfl, rfl, rfl, rfl, rfl, fun u v dm => rfl, ?_⟩
  intro ts
  rcases s with ⟨ci, ds, ch, cp, rm, tv, T, ce, pts⟩
  rcases ch with _ | h <;> rcases cp with _ | pos <;> rcases rm with _ | R <;>
    rcases tv with _ | tr <;> rcases T with _ | T <;> rfl

end WorldFrameCalibration
